import Mathlib

/-!
# Verification of the ComputerNetworking_Ex2 calculator protocol

Shallow embedding of the repository's core logic:

* `src/api.py` — the `CalculatorHeader` class: construction with its
  normalization/validation rules, `pack`/`unpack` and the flag bit packing.
* `src/proxy.py` — `process_request`: the cache freshness resolver.
* `src/server.py` — `calculate` (the recursive evaluator producing a step
  trace) and `process_request` (request handling and status-code mapping).
* `src/calculator.py` — the expression data model, the bracket renderers and
  the `stringify` bracket-minimization pass.

Machine integers are modelled as `Nat` with explicit range checks at the
points where Python's `struct` module enforces them; byte strings are
`List Nat`; fallible code returns `Except String`.
-/

set_option maxRecDepth 10000

namespace CalcNet

/-- The fields of `CalculatorHeader` (src/api.py lines 102-136) after
construction. `data` is the payload byte string. -/
structure Header where
  unixTimeStamp : Nat
  totalLength : Nat
  reserved : Nat
  cacheResult : Bool
  showSteps : Bool
  isRequest : Bool
  statusCode : Nat
  cacheControl : Nat
  data : List Nat
deriving DecidableEq, Repr

/-- `CalculatorHeader.__init__` (src/api.py lines 102-136).

* `tlOpt = none` models passing `total_length=None` (auto-computed).
* A total length outside `[12, 65536]` raises `ValueError`; a payload longer
  than `65524` bytes raises `ValueError`.
* The cache normalization mirrors lines 124-131: a nonzero cache-control with
  the cache flag unset is zeroed (warning only); a response with the cache
  flag set and cache-control 0 has the flag cleared (warning only).
* All other anomalies (length mismatch, nonzero reserved bits, nonzero status
  code on a request) are warnings and leave the fields unchanged. -/
def mkHeader (uts : Nat) (tlOpt : Option Nat) (reserved : Nat)
    (cacheRes showSteps isReq : Bool) (statusCode cacheControl : Nat)
    (data : List Nat) : Except String Header :=
  if tlOpt.getD (12 + data.length) < 12 ∨ 65536 < tlOpt.getD (12 + data.length) then
    .error "Invalid total length"
  else if 65524 < data.length then .error "Invalid data length"
  else if cacheControl ≠ 0 ∧ cacheRes = false then
    .ok ⟨uts, tlOpt.getD (12 + data.length), reserved, cacheRes, showSteps, isReq,
      statusCode, 0, data⟩
  else if isReq = false ∧ cacheControl = 0 ∧ cacheRes = true then
    .ok ⟨uts, tlOpt.getD (12 + data.length), reserved, false, showSteps, isReq,
      statusCode, cacheControl, data⟩
  else
    .ok ⟨uts, tlOpt.getD (12 + data.length), reserved, cacheRes, showSteps, isReq,
      statusCode, cacheControl, data⟩

/-- `CalculatorHeader.pack_flags` (src/api.py lines 144-146):
`(reserved << 13) | (cache << 12) | (steps << 11) | (request << 10) | status`. -/
def packFlags (reserved : Nat) (cacheRes showSteps isReq : Bool)
    (statusCode : Nat) : Nat :=
  (reserved <<< 13) ||| (cacheRes.toNat <<< 12) ||| (showSteps.toNat <<< 11) |||
    (isReq.toNat <<< 10) ||| statusCode

/-- `CalculatorHeader.unpack_flags` (src/api.py lines 148-156); returns
`(reserved, cache_result, show_steps, is_request, status_code)`. -/
def unpackFlags (flags : Nat) : Nat × Bool × Bool × Bool × Nat :=
  ((flags >>> 13) &&& 7, flags &&& 4096 != 0, flags &&& 2048 != 0,
    flags &&& 1024 != 0, flags &&& 1023)

/-- `CalculatorHeader.pack` (src/api.py lines 158-159):
`struct.pack('!LHHHxx', ...)` followed by the payload.  `struct.pack` raises
when a field does not fit its format code (`L` is 32 bits, `H` is 16 bits),
modelled by the range guards.  The two `x` pad bytes are written as zeros. -/
def pack (h : Header) : Except String (List Nat) :=
  if 4294967296 ≤ h.unixTimeStamp then .error "argument out of range"
  else if 65536 ≤ h.totalLength then .error "argument out of range"
  else if 65536 ≤ packFlags h.reserved h.cacheResult h.showSteps h.isRequest h.statusCode then
    .error "argument out of range"
  else if 65536 ≤ h.cacheControl then .error "argument out of range"
  else
    .ok (h.unixTimeStamp / 16777216 % 256 :: h.unixTimeStamp / 65536 % 256 ::
      h.unixTimeStamp / 256 % 256 :: h.unixTimeStamp % 256 ::
      h.totalLength / 256 % 256 :: h.totalLength % 256 ::
      packFlags h.reserved h.cacheResult h.showSteps h.isRequest h.statusCode / 256 % 256 ::
      packFlags h.reserved h.cacheResult h.showSteps h.isRequest h.statusCode % 256 ::
      h.cacheControl / 256 % 256 :: h.cacheControl % 256 :: 0 :: 0 :: h.data)

/-- `CalculatorHeader.unpack` (src/api.py lines 161-170): fewer than 12 bytes
raises `ValueError`; otherwise the fixed header prefix is parsed big-endian
(the two pad bytes are ignored, as `struct.unpack` does for `x`) and the
constructor is called on the decoded fields with the remaining bytes. -/
def unpack (bytes : List Nat) : Except String Header :=
  match bytes with
  | b0 :: b1 :: b2 :: b3 :: b4 :: b5 :: b6 :: b7 :: b8 :: b9 :: _ :: _ :: rest =>
    match unpackFlags (b6 * 256 + b7) with
    | (reserved, cacheRes, showSteps, isReq, statusCode) =>
      mkHeader (((b0 * 256 + b1) * 256 + b2) * 256 + b3) (some (b4 * 256 + b5))
        reserved cacheRes showSteps isReq statusCode (b8 * 256 + b9) rest
  | _ => .error "The data is too short to be a valid header"

/-! ## Cache resolver (src/proxy.py) -/

/-- A cache-control budget minus an age: either a finite number of seconds or
`math.inf` (used when the cache-control field equals `INDEFINITE = 65535`,
src/proxy.py lines 33-34). -/
inductive TimeRem where
  | fin (n : Int)
  | inf
deriving DecidableEq, Repr

/-- `cc - age` where `cc` is replaced by `math.inf` when it equals 65535
(src/proxy.py lines 33-36). -/
def ccRem (cc : Nat) (age : Int) : TimeRem :=
  if cc = 65535 then .inf else .fin ((cc : Int) - age)

/-- Strict positivity of a remaining time (`> 0` in src/proxy.py lines 38, 70);
`math.inf > 0` is true in Python. -/
def TimeRem.pos : TimeRem → Bool
  | .fin n => 0 < n
  | .inf => true

/-- Cache key: `(request.data, request.show_steps)` (src/proxy.py line 29). -/
abbrev CacheKey : Type := List Nat × Bool

/-- The proxy's cache dictionary (src/proxy.py line 8), as an association list
in insertion order. -/
abbrev Cache : Type := List (CacheKey × Header)

/-- Python `key in cache` / `cache[key]`. -/
def cacheLookup : Cache → CacheKey → Option Header
  | [], _ => none
  | (k0, v0) :: rest, k => if k0 = k then some v0 else cacheLookup rest k

/-- Python `cache[key] = response`: overwrite in place, or append. -/
def cacheSet : Cache → CacheKey → Header → Cache
  | [], k, v => [(k, v)]
  | (k0, v0) :: rest, k, v =>
    if k0 = k then (k, v) :: rest else (k0, v0) :: cacheSet rest k v

/-- The tuple returned by the proxy's `process_request` (src/proxy.py line 12),
together with the cache contents after the call (the function mutates the
global `cache` dictionary). -/
structure ProxyOutcome where
  response : Header
  serverRem : TimeRem
  clientRem : TimeRem
  cacheHit : Bool
  wasStale : Bool
  cached : Bool
  newCache : Cache
deriving DecidableEq

/-- `process_request` in src/proxy.py (lines 12-74).

The socket round trip to the upstream server (lines 44-61) is abstracted by
the `upstream` parameter: the response header the server would send back;
receiving a request instead of a response there raises `TypeError`.  `now1`
and `now2` are the two `int(time.time())` reads (lines 31 and 63). -/
def proxyProcessRequest (request : Header) (cache : Cache) (now1 now2 : Int)
    (upstream : Header) : Except String ProxyOutcome :=
  if request.isRequest = false then
    .error "Received a response instead of a request"
  else
    let key : CacheKey := (request.data, request.showSteps)
    let fromUpstream : Bool → Except String ProxyOutcome := fun wasStale =>
      if upstream.isRequest then .error "Received a request instead of a response"
      else
        let age : Int := now2 - (upstream.unixTimeStamp : Int)
        let sRem := ccRem upstream.cacheControl age
        let cRem := ccRem request.cacheControl age
        let store := request.cacheResult && upstream.cacheResult && sRem.pos && cRem.pos
        .ok ⟨upstream, sRem, cRem, false, wasStale, store,
          if store then cacheSet cache key upstream else cache⟩
    match cacheLookup cache key with
    | some response =>
      if request.cacheControl ≠ 0 then
        let age : Int := now1 - (response.unixTimeStamp : Int)
        let sRem := ccRem response.cacheControl age
        let cRem := ccRem request.cacheControl age
        if sRem.pos && cRem.pos then
          .ok ⟨response, sRem, cRem, true, false, false, cache⟩
        else fromUpstream true
      else fromUpstream false
    | none => fromUpstream false

/-! ## Expression model and evaluator (src/calculator.py, src/server.py) -/

/-- `Associativity` (src/calculator.py lines 113-119). -/
inductive Associativity where
  | left
  | right
deriving DecidableEq, Repr

/-- `BinaryOperator` (src/calculator.py lines 121-153): a symbol, an
evaluation function over already-evaluated operands, and an associativity. -/
structure BinOp where
  symbol : String
  fn : ℚ → ℚ → ℚ
  associativity : Associativity

/-- `UnaryOperator` (src/calculator.py lines 183-203). -/
structure UnOp where
  symbol : String
  fn : ℚ → ℚ

/-- `Function` (src/calculator.py lines 233-253): an n-ary function over the
list of evaluated arguments. -/
structure Func where
  name : String
  fn : List ℚ → ℚ

/-- The expression AST (src/calculator.py): `Constant`, `NamedConstant`,
`BinaryExpr`, `UnaryExpr`, `FunctionCallExpr`.  Numeric values are modelled
by `ℚ`.  The Python class hierarchy is open (any `Expression` subclass can
arrive over the wire); the extra `unknown` constructor models an instance of
an unrecognized subclass, which hits the final `else` of `calculate`
(src/server.py lines 54-55). -/
inductive Expression where
  | const (value : ℚ)
  | namedConstant (name : String) (value : ℚ)
  | binary (left : Expression) (op : BinOp) (right : Expression)
  | unary (op : UnOp) (operand : Expression)
  | call (fn : Func) (args : List Expression)
  | unknown

/-- Whether the node is a bare `Constant` or `NamedConstant` (the two leaf
kinds that contribute no steps in `calculate`, src/server.py lines 20-21). -/
def Expression.isLeaf : Expression → Bool
  | .const _ => true
  | .namedConstant _ _ => true
  | _ => false

mutual

/-- `calculate` in src/server.py (lines 12-56).  Returns the final value and
the step list; raises `TypeError` on an unrecognized node kind.  The `steps`
parameter is the list the Python code appends to in place (recursive calls
pass fresh empty lists, exactly as in the source).  Raw numeric values
appearing in snapshots are wrapped as `Constant` nodes, which is what
`type_fallback` does inside the `BinaryExpr`/`UnaryExpr`/`FunctionCallExpr`
constructors. -/
def calculate : Expression → List Expression → Except String (ℚ × List Expression)
  | .const v, steps => .ok (v, steps)
  | .namedConstant _ v, steps => .ok (v, steps)
  | .binary l op r, steps =>
    match calculate l [] with
    | .error e => .error e
    | .ok lr =>
      let steps1 := steps ++ lr.2.dropLast.map (fun st => .binary st op r)
      match calculate r [] with
      | .error e => .error e
      | .ok rr =>
        let steps2 := steps1 ++ rr.2.dropLast.map (fun st => .binary (.const lr.1) op st)
        let steps3 := steps2 ++ [.binary (.const lr.1) op (.const rr.1)]
        .ok (op.fn lr.1 rr.1, steps3 ++ [.const (op.fn lr.1 rr.1)])
  | .unary op e, steps =>
    match calculate e [] with
    | .error er => .error er
    | .ok orr =>
      let steps1 := steps ++ orr.2.dropLast.map (fun st => .unary op st)
      let steps2 := steps1 ++ [.unary op (.const orr.1)]
      .ok (op.fn orr.1, steps2 ++ [.const (op.fn orr.1)])
  | .call f argEs, steps =>
    match calcArgs f argEs argEs [] steps with
    | .error e => .error e
    | .ok res =>
      let steps1 := res.2 ++ [.call f (res.1.map .const)]
      .ok (f.fn res.1, steps1 ++ [.const (f.fn res.1)])
  | .unknown, _ => .error "Unknown expression type"
termination_by e _ => sizeOf e

/-- The `for arg in expr.args` loop of the `FunctionCallExpr` branch
(src/server.py lines 43-50).  `orig` is `expr.args`; `vals` is the Python
`args` accumulator of already-computed values; each intermediate snapshot is
`FunctionCallExpr(f, *(args + [step] + expr.args[len(args)+1:]))`. -/
def calcArgs (f : Func) (orig : List Expression) :
    List Expression → List ℚ → List Expression → Except String (List ℚ × List Expression)
  | [], vals, steps => .ok (vals, steps)
  | a :: rest, vals, steps =>
    match calculate a [] with
    | .error e => .error e
    | .ok ar =>
      let steps1 := steps ++ ar.2.dropLast.map
        (fun st => .call f (vals.map .const ++ [st] ++ orig.drop (vals.length + 1)))
      calcArgs f orig rest (vals ++ [ar.1]) steps1
termination_by rem _ _ => sizeOf rem

end

/-! ## Rendering and the bracket-minimization pass (src/calculator.py) -/

/-- Rendering of a rational value, standing in for Python `str` on the host
numeric type. -/
def ratStr (v : ℚ) : String :=
  if v.den = 1 then toString v.num else toString v.num ++ "/" ++ toString v.den

/-- Whether the node is a `BinaryExpr` (used by `BinaryExpr.__str__` to decide
which operands to parenthesize, src/calculator.py lines 173-176). -/
def Expression.isBinary : Expression → Bool
  | .binary _ _ _ => true
  | _ => false

/-- `__str__` of each expression class (src/calculator.py): minimal
parenthesization — only a `BinaryExpr` operand of a `BinaryExpr` is wrapped.
`unknown` has no `__str__` in the closed set; it renders as the empty string
(unreachable for trees built from the model's constructors). -/
def strPlain : Expression → String
  | .const v => ratStr v
  | .namedConstant n _ => n
  | .binary l op r =>
    (if l.isBinary then "(" ++ strPlain l ++ ")" else strPlain l) ++ " " ++
      op.symbol ++ " " ++
      (if r.isBinary then "(" ++ strPlain r ++ ")" else strPlain r)
  | .unary op e => op.symbol ++ strPlain e
  | .call f args =>
    f.name ++ "(" ++
      String.intercalate ", " (args.attach.map (fun x => strPlain x.1)) ++ ")"
  | .unknown => ""
termination_by e => sizeOf e
decreasing_by
  all_goals simp_wf
  all_goals first
  | omega
  | (have hmem := List.sizeOf_lt_of_mem x.2; omega)

/-- `__str_brackets__` of each expression class (src/calculator.py lines 179-180,
221-222, 271-272): every binary expression is wrapped, unary operands and
function arguments are wrapped by their own renderers. -/
def strBrackets : Expression → String
  | .const v => ratStr v
  | .namedConstant n _ => n
  | .binary l op r =>
    "(" ++ strBrackets l ++ " " ++ op.symbol ++ " " ++ strBrackets r ++ ")"
  | .unary op e => op.symbol ++ "(" ++ strBrackets e ++ ")"
  | .call f args =>
    f.name ++ "(" ++
      String.intercalate ", " (args.attach.map (fun x => strBrackets x.1)) ++ ")"
  | .unknown => ""
termination_by e => sizeOf e
decreasing_by
  all_goals simp_wf
  all_goals first
  | omega
  | (have hmem := List.sizeOf_lt_of_mem x.2; omega)

/-- The bracket-matching loop of `stringify` (src/calculator.py lines 290-301):
scans the characters, pushing the index of each `'('` and popping on each
`')'`; an unmatched bracket raises `ValueError`.  The resulting `matchings`
dictionary is modelled as the list of `(open, close)` pairs in insertion
order (the order the pairs are popped). -/
def matchLoop : List Char → Nat → List Nat → List (Nat × Nat) →
    Except String (List (Nat × Nat))
  | [], _, [], acc => .ok acc
  | [], _, _ :: _, _ => .error "Unmatched opening bracket"
  | c :: rest, i, stack, acc =>
    if c = '(' then matchLoop rest (i + 1) (i :: stack) acc
    else if c = ')' then
      match stack with
      | [] => .error "Unmatched closing bracket"
      | top :: stack1 => matchLoop rest (i + 1) stack1 (acc ++ [(top, i)])
    else matchLoop rest (i + 1) stack acc

/-- The redundant-pair removal pass of `stringify` (src/calculator.py lines
289-307): compute `matchings`, then for each `(left, right)` pair in
insertion order, if `left+1` is also an opening bracket whose match is
`right-1`, splice the string as
`expr_s[:left] + expr_s[left+1:right-1] + expr_s[right:]`; finally, if
position 0 matches the last position of the (possibly already spliced)
string, drop the first and last characters (`expr_s[1:-1]`).

The splices reuse the indices computed on the *original* string even after
the string has been shortened, exactly as the Python loop does.  Python slice
clamping corresponds to `List.take`/`List.drop` on `Nat` indices. -/
def stripPass (s : List Char) : Except String (List Char) :=
  match matchLoop s 0 [] [] with
  | .error e => .error e
  | .ok m =>
    let s1 := m.foldl
      (fun cur lr =>
        if m.lookup (lr.1 + 1) = some (lr.2 - 1) then
          cur.take lr.1 ++ (cur.drop (lr.1 + 1)).take (lr.2 - 1 - (lr.1 + 1)) ++
            cur.drop lr.2
        else cur) s
    .ok (if m.lookup 0 = some (s1.length - 1) then (s1.drop 1).dropLast else s1)

/-- `stringify` (src/calculator.py lines 283-307): render (with or without
uniform brackets), then run the redundant-pair removal pass. -/
def stringify (e : Expression) (addBrackets : Bool) : Except String String :=
  match stripPass (if addBrackets then strBrackets e else strPlain e).toList with
  | .error er => .error er
  | .ok l => .ok (String.mk l)

/-! ## Server request processing (src/server.py) -/

/-- `CACHE_POLICY` (src/server.py line 7). -/
def CACHE_POLICY : Bool := true

/-- `CACHE_CONTROL` (src/server.py line 9): `2 ** 16 - 1`. -/
def CACHE_CONTROL : Nat := 65535

/-- `CalculatorHeader.from_response` (src/api.py lines 181-183): a response
header stamped with the current time. -/
def fromResponse (now : Nat) (data : List Nat) (statusCode : Nat)
    (showSteps cacheRes : Bool) (cacheControl : Nat) : Except String Header :=
  mkHeader now none 0 cacheRes showSteps false statusCode cacheControl data

/-- `CalculatorHeader.from_error` (src/api.py lines 189-191): the serialized
exception is abstracted as the `data` bytes; `show_steps` is false. -/
def fromError (now : Nat) (data : List Nat) (statusCode : Nat)
    (cacheRes : Bool) (cacheControl : Nat) : Except String Header :=
  fromResponse now data statusCode false cacheRes cacheControl

/-- `CalculatorHeader.from_result` (src/api.py lines 185-187): status 200,
`show_steps = bool(steps)`. -/
def fromResult (now : Nat) (data : List Nat) (stepsNonempty : Bool)
    (cacheRes : Bool) (cacheControl : Nat) : Except String Header :=
  fromResponse now data 200 stepsNonempty cacheRes cacheControl

/-- The `try` block of the server's `process_request` (src/server.py lines
64-69): decode the payload into an expression (`data_to_expression`, whose
failures are exceptions) and evaluate it; a response in place of a request
raises `TypeError`.  `decode` abstracts the pickle payload codec. -/
def serverCompute (decode : List Nat → Except String Expression)
    (request : Header) : Except String (ℚ × List Expression) :=
  if request.isRequest then
    match decode request.data with
    | .error e => .error e
    | .ok expr => calculate expr []
  else .error "Received a response instead of a request"

/-- `process_request` in src/server.py (lines 59-78).  Any exception from
decoding or evaluation is answered with `STATUS_CLIENT_ERROR = 400`
(line 71); on success the steps are stringified when requested and a 200
response is built.  `encodeResult`/`encodeError` abstract the pickle codec;
a `.error` result models an exception escaping `process_request` itself
(possible when `stringify` or the header constructor raises). -/
def serverProcessRequest (now : Nat)
    (decode : List Nat → Except String Expression)
    (encodeResult : ℚ → List String → List Nat)
    (encodeError : String → List Nat)
    (request : Header) : Except String Header :=
  match serverCompute decode request with
  | .error e => fromError now (encodeError e) 400 CACHE_POLICY CACHE_CONTROL
  | .ok res =>
    match
      if request.showSteps then res.2.mapM (fun st => stringify st true)
      else .ok [] with
    | .error e => .error e
    | .ok stepsS =>
      fromResult now (encodeResult res.1 stepsS) (stepsS != []) CACHE_POLICY
        CACHE_CONTROL

/-- Python's `calculate(expression)` with the `steps` argument omitted: the
default `steps: list[str] = []` is a single list object created once at
definition time, mutated in place by the call and returned as the step list.
`st` is the current content of that default list; the second component of the
result is its content after the call (the returned list *is* the default
list). -/
def calculateDefault (st : List Expression) (e : Expression) :
    Except String ((ℚ × List Expression) × List Expression) :=
  match calculate e st with
  | .error er => .error er
  | .ok r => .ok (r, r.2)

/-- A concrete addition operator, `BINARY_OPERATORS.ADD`
(src/calculator.py line 347). -/
def opAdd : BinOp := ⟨"+", fun a b => a + b, .left⟩

/-- A concrete negation operator, `UNARY_OPERATORS.NEG`
(src/calculator.py line 355). -/
def opNeg : UnOp := ⟨"-", fun a => -a⟩

deriving instance DecidableEq for Except

/-! ## Helper lemmas -/

theorem shiftLeft_lor_eq (y n x : Nat) (hx : x < 2 ^ n) :
    y <<< n ||| x = y * 2 ^ n + x := by
  apply Nat.eq_of_testBit_eq
  intro j
  rw [Nat.testBit_or, Nat.testBit_shiftLeft, mul_comm y (2 ^ n),
    Nat.testBit_mul_pow_two_add y hx j]
  by_cases h : j < n
  · have h2 : ¬ (j ≥ n) := by omega
    simp [h, h2]
  · have hge : j ≥ n := by omega
    have hxj : x.testBit j = false :=
      Nat.testBit_lt_two_pow (lt_of_lt_of_le hx (Nat.pow_le_pow_right (by norm_num) hge))
    simp [h, hge, hxj]

/-- `pack_flags` in additive form: the five fields occupy disjoint bit
ranges, so the bitwise ors are plain additions. -/
theorem packFlags_eq (r sc : Nat) (c s i : Bool) (hsc : sc < 1024) :
    packFlags r c s i sc =
      r * 8192 + c.toNat * 4096 + s.toNat * 2048 + i.toNat * 1024 + sc := by
  have hc := Bool.toNat_le c
  have hs := Bool.toNat_le s
  have hi := Bool.toNat_le i
  unfold packFlags
  rw [Nat.lor_assoc, Nat.lor_assoc, Nat.lor_assoc]
  rw [shiftLeft_lor_eq i.toNat 10 sc (lt_of_lt_of_le hsc (by norm_num))]
  rw [shiftLeft_lor_eq s.toNat 11 _ (by
    have e : (2:Nat) ^ 11 = 2048 := by norm_num
    omega)]
  rw [shiftLeft_lor_eq c.toNat 12 _ (by
    have e : (2:Nat) ^ 12 = 4096 := by norm_num
    omega)]
  rw [shiftLeft_lor_eq r 13 _ (by
    have e : (2:Nat) ^ 13 = 8192 := by norm_num
    omega)]
  have e13 : (2:Nat) ^ 13 = 8192 := by norm_num
  have e12 : (2:Nat) ^ 12 = 4096 := by norm_num
  have e11 : (2:Nat) ^ 11 = 2048 := by norm_num
  have e10 : (2:Nat) ^ 10 = 1024 := by norm_num
  omega

/-- `unpack_flags` inverts `pack_flags` whenever the reserved bits fit in
3 bits and the status code in 10 bits, and the packed value fits in 16 bits. -/
theorem unpack_packFlags (r sc : Nat) (c s i : Bool) (hr : r < 8) (hsc : sc < 1024) :
    unpackFlags (packFlags r c s i sc) = (r, c, s, i, sc) ∧
      packFlags r c s i sc < 65536 := by
  have hc := Bool.toNat_le c
  have hs := Bool.toNat_le s
  have hi := Bool.toNat_le i
  rw [packFlags_eq r sc c s i hsc]
  set F := r * 8192 + c.toNat * 4096 + s.toNat * 2048 + i.toNat * 1024 + sc with hF
  have hbit : ∀ k : Nat, F &&& 2 ^ k = (decide (F / 2 ^ k % 2 = 1)).toNat * 2 ^ k := by
    intro k
    rw [Nat.and_two_pow, Nat.testBit_to_div_mod]
  have h12 : F / 4096 % 2 = c.toNat := by omega
  have h11 : F / 2048 % 2 = s.toNat := by omega
  have h10 : F / 1024 % 2 = i.toNat := by omega
  constructor
  · unfold unpackFlags
    refine Prod.ext ?_ (Prod.ext ?_ (Prod.ext ?_ (Prod.ext ?_ ?_))) <;> simp only []
    · rw [Nat.shiftRight_eq_div_pow]
      rw [show (7:Nat) = 2 ^ 3 - 1 by norm_num, Nat.and_pow_two_sub_one_eq_mod]
      have e13 : (2:Nat) ^ 13 = 8192 := by norm_num
      have e3 : (2:Nat) ^ 3 = 8 := by norm_num
      omega
    · rw [show (4096:Nat) = 2 ^ 12 by norm_num, hbit 12]
      rw [show (2:Nat) ^ 12 = 4096 by norm_num, h12]
      cases c <;> simp
    · rw [show (2048:Nat) = 2 ^ 11 by norm_num, hbit 11]
      rw [show (2:Nat) ^ 11 = 2048 by norm_num, h11]
      cases s <;> simp
    · rw [show (1024:Nat) = 2 ^ 10 by norm_num, hbit 10]
      rw [show (2:Nat) ^ 10 = 1024 by norm_num, h10]
      cases i <;> simp
    · rw [show (1023:Nat) = 2 ^ 10 - 1 by norm_num, Nat.and_pow_two_sub_one_eq_mod]
      have e10 : (2:Nat) ^ 10 = 1024 := by norm_num
      omega
  · omega

/-- Construction passes every field through except for the cache
normalization, and enforces exactly the two length bounds; the two cache
invariants hold for every accepted header. -/
theorem mkHeader_fields (uts : Nat) (tlOpt : Option Nat) (r : Nat) (cr ss ir : Bool)
    (sc cc : Nat) (d : List Nat) (h : Header)
    (he : mkHeader uts tlOpt r cr ss ir sc cc d = .ok h) :
    h.unixTimeStamp = uts ∧ h.totalLength = tlOpt.getD (12 + d.length) ∧
      h.reserved = r ∧ h.showSteps = ss ∧ h.isRequest = ir ∧ h.statusCode = sc ∧
      h.data = d ∧ 12 ≤ h.totalLength ∧ h.totalLength ≤ 65536 ∧ d.length ≤ 65524 ∧
      (h.cacheResult = false → h.cacheControl = 0) ∧
      ¬(h.isRequest = false ∧ h.cacheControl = 0 ∧ h.cacheResult = true) := by
  unfold mkHeader at he
  split_ifs at he with h1 h2 h3 h4 <;>
    (injection he with he; subst he; dsimp only) <;>
    refine ⟨rfl, rfl, rfl, rfl, rfl, rfl, rfl, by omega, by omega, by omega, ?_, ?_⟩
  · intro _
    rfl
  · rcases h3 with ⟨-, hcr⟩
    intro hx
    rw [hcr] at hx
    exact absurd hx.2.2 (by simp)
  · intro _
    exact h4.2.1
  · intro hx
    exact absurd hx.2.2 (by simp)
  · intro hcr
    by_contra hcc
    exact h3 ⟨hcc, hcr⟩
  · exact h4

/-- Construction is the identity on a header that already satisfies the
construction invariants (used for the `unpack ∘ pack` round trip, where
`unpack` re-runs the constructor on the decoded fields). -/
theorem mkHeader_stable (h : Header)
    (h12 : 12 ≤ h.totalLength) (h65536 : h.totalLength ≤ 65536)
    (hd : h.data.length ≤ 65524)
    (inv1 : h.cacheResult = false → h.cacheControl = 0)
    (inv2 : ¬(h.isRequest = false ∧ h.cacheControl = 0 ∧ h.cacheResult = true)) :
    mkHeader h.unixTimeStamp (some h.totalLength) h.reserved h.cacheResult
      h.showSteps h.isRequest h.statusCode h.cacheControl h.data = .ok h := by
  unfold mkHeader
  simp only [Option.getD_some]
  split_ifs with h1 h2 h3
  · exfalso
    rcases h1 with h1 | h1 <;> omega
  · exfalso
    omega
  · exfalso
    exact absurd (inv1 h3.2) h3.1
  · rfl

/-- Construction with an explicit in-range total length and an in-range
payload always succeeds, carrying the payload and the declared total length
unchanged (whether or not they are consistent with each other). -/
theorem mkHeader_success (uts : Nat) (tl : Nat) (r : Nat) (cr ss ir : Bool)
    (sc cc : Nat) (d : List Nat) (h12 : 12 ≤ tl) (h65536 : tl ≤ 65536)
    (hd : d.length ≤ 65524) :
    ∃ h, mkHeader uts (some tl) r cr ss ir sc cc d = .ok h ∧
      h.data = d ∧ h.totalLength = tl := by
  unfold mkHeader
  simp only [Option.getD_some]
  split_ifs with h1 h2 h3 h4
  · exfalso
    rcases h1 with h1 | h1 <;> omega
  · exfalso
    omega
  · exact ⟨_, rfl, rfl, rfl⟩
  · exact ⟨_, rfl, rfl, rfl⟩
  · exact ⟨_, rfl, rfl, rfl⟩

/-! ## Claim C1 — pack/unpack round trip -/

/-- C1 (amended): for every header accepted by construction whose fields also
fit their wire bit-widths — timestamp below `2^32`, reserved bits below `2^3`,
status code below `2^10`, cache control below `2^16` — and whose total length
is at most 65535 (the largest value `struct.pack` accepts for a 16-bit
field), unpacking the packed bytes returns the identical header: same
timestamp, total length, reserved bits, cache flag, steps flag, request
flag, status code, cache control, and byte-identical payload.  Construction
alone does not bound these fields, so the extra hypotheses are needed (see
the counterexample). -/
theorem c1_roundTrip (uts : Nat) (tlOpt : Option Nat) (r : Nat)
    (cr ss ir : Bool) (sc cc : Nat) (d : List Nat) (h : Header)
    (he : mkHeader uts tlOpt r cr ss ir sc cc d = .ok h)
    (hts : h.unixTimeStamp < 4294967296) (hr : h.reserved < 8)
    (hsc : h.statusCode < 1024) (hcc : h.cacheControl < 65536)
    (htl : h.totalLength ≤ 65535) :
    (pack h).bind unpack = .ok h := by
  obtain ⟨-, -, -, -, -, -, hdata, h12, h65536, hd, inv1, inv2⟩ :=
    mkHeader_fields uts tlOpt r cr ss ir sc cc d h he
  rw [← hdata] at hd
  obtain ⟨hflagsRt, hflagsLt⟩ :=
    unpack_packFlags h.reserved h.statusCode h.cacheResult h.showSteps h.isRequest hr hsc
  unfold pack
  rw [if_neg (by omega), if_neg (by omega), if_neg (by omega), if_neg (by omega)]
  have hb : ∀ (x : List Nat), (Except.ok x : Except String (List Nat)).bind unpack = unpack x :=
    fun _ => rfl
  rw [hb]
  unfold unpack
  dsimp only
  have e6 : (packFlags h.reserved h.cacheResult h.showSteps h.isRequest h.statusCode / 256 % 256) * 256 +
      packFlags h.reserved h.cacheResult h.showSteps h.isRequest h.statusCode % 256 =
      packFlags h.reserved h.cacheResult h.showSteps h.isRequest h.statusCode := by
    omega
  rw [e6, hflagsRt]
  have e0 : ((h.unixTimeStamp / 16777216 % 256 * 256 + h.unixTimeStamp / 65536 % 256) * 256 +
      h.unixTimeStamp / 256 % 256) * 256 + h.unixTimeStamp % 256 = h.unixTimeStamp := by
    omega
  have e4 : h.totalLength / 256 % 256 * 256 + h.totalLength % 256 = h.totalLength := by
    omega
  have e8 : h.cacheControl / 256 % 256 * 256 + h.cacheControl % 256 = h.cacheControl := by
    omega
  rw [e0, e4, e8]
  exact mkHeader_stable h h12 h65536 hd inv1 inv2

/-- C1 (counterexample): the response header with status code 1024 is
accepted by construction unchanged (construction never bounds the status
code, it is not one of the normalized fields), but its packed form decodes
to a *request* with status code 0 — bit 10 of the status code aliases the
request flag — so `unpack (pack h)` is a different header. -/
theorem c1_counterexample :
    mkHeader 0 (some 12) 0 false false false 1024 0 [] =
        .ok ⟨0, 12, 0, false, false, false, 1024, 0, []⟩ ∧
      (pack ⟨0, 12, 0, false, false, false, 1024, 0, []⟩).bind unpack =
        .ok ⟨0, 12, 0, false, false, true, 0, 0, []⟩ ∧
      (⟨0, 12, 0, false, false, true, 0, 0, []⟩ : Header) ≠
        ⟨0, 12, 0, false, false, false, 1024, 0, []⟩ := by
  refine ⟨by decide, by decide, by decide⟩

/-- C1 (witness): the round trip applied to a concrete request header. -/
theorem c1_witness :
    (pack ⟨5, 15, 0, true, true, true, 0, 100, [1, 2, 3]⟩).bind unpack =
      .ok ⟨5, 15, 0, true, true, true, 0, 100, [1, 2, 3]⟩ :=
  c1_roundTrip 5 none 0 true true true 0 100 [1, 2, 3] _ (by decide) (by decide)
    (by decide) (by decide) (by decide) (by decide)

/-! ## Claim C5 — cache normalization invariants -/

/-- C5: every header accepted by construction satisfies the normalization
invariants: if the cache flag is false then the cache control is 0 (a
nonzero cache control supplied with the flag unset is auto-zeroed, and —
second conjunct — such arguments are accepted, not rejected, for any payload
that fits); and no constructed response has the cache flag set together with
cache control 0. -/
theorem c5_normalization :
    (∀ (uts : Nat) (tlOpt : Option Nat) (r : Nat) (cr ss ir : Bool)
        (sc cc : Nat) (d : List Nat) (h : Header),
      mkHeader uts tlOpt r cr ss ir sc cc d = .ok h →
        (h.cacheResult = false → h.cacheControl = 0) ∧
        ¬(h.isRequest = false ∧ h.cacheResult = true ∧ h.cacheControl = 0)) ∧
    (∀ (uts : Nat) (ss ir : Bool) (sc cc : Nat) (d : List Nat),
      d.length ≤ 65524 →
      ∃ h, mkHeader uts none 0 false ss ir sc cc d = .ok h ∧
        h.cacheResult = false ∧ h.cacheControl = 0) := by
  constructor
  · intro uts tlOpt r cr ss ir sc cc d h he
    obtain ⟨-, -, -, -, -, -, -, -, -, -, inv1, inv2⟩ :=
      mkHeader_fields uts tlOpt r cr ss ir sc cc d h he
    exact ⟨inv1, fun hx => inv2 ⟨hx.1, hx.2.2, hx.2.1⟩⟩
  · intro uts ss ir sc cc d hd
    unfold mkHeader
    simp only [Option.getD_none]
    split_ifs with h1 h2 h3 h4
    · exfalso
      rcases h1 with h1 | h1 <;> omega
    · exfalso
      omega
    · exact ⟨_, rfl, rfl, rfl⟩
    · exact absurd h4 (by simp)
    · have hcc : cc = 0 := by
        by_contra hx
        exact h3 ⟨hx, by simp⟩
      subst hcc
      exact ⟨_, rfl, rfl, rfl⟩

/-- C5 (witness): the invariants at a concrete accepted response header, and
acceptance of a concrete nonzero cache control with the cache flag unset. -/
theorem c5_witness :
    (¬((⟨9, 12, 0, true, false, false, 200, 50, []⟩ : Header).isRequest = false ∧
        (⟨9, 12, 0, true, false, false, 200, 50, []⟩ : Header).cacheResult = true ∧
        (⟨9, 12, 0, true, false, false, 200, 50, []⟩ : Header).cacheControl = 0)) ∧
    (∃ h, mkHeader 7 none 0 false true false 200 99 [] = .ok h ∧
        h.cacheResult = false ∧ h.cacheControl = 0) := by
  constructor
  · exact (c5_normalization.1 9 none 0 true false false 200 50 [] _ (by decide)).2
  · exact c5_normalization.2 7 true false 200 99 [] (by decide)

/-! ## Claim C6 — unpack framing and length-mismatch tolerance -/

/-- C6 (amended): `unpack` fails on fewer than 12 bytes; for an input of at
least 12 bytes it succeeds — with the header carrying exactly the payload
bytes actually present after the 12-byte prefix, regardless of any mismatch
with the declared length — *provided* the declared total length (bytes 4-5,
big-endian) lies in `[12, 65536]` and at most 65524 payload bytes are
present; outside those bounds the constructor called by `unpack` raises, so
the failure is not limited to short inputs (see the counterexample). -/
theorem c6_amended :
    (∀ bytes : List Nat, bytes.length < 12 →
      unpack bytes = .error "The data is too short to be a valid header") ∧
    (∀ b0 b1 b2 b3 b4 b5 b6 b7 b8 b9 p0 p1 : Nat, ∀ rest : List Nat,
      12 ≤ b4 * 256 + b5 → b4 * 256 + b5 ≤ 65536 → rest.length ≤ 65524 →
      ∃ h, unpack (b0 :: b1 :: b2 :: b3 :: b4 :: b5 :: b6 :: b7 :: b8 :: b9 ::
          p0 :: p1 :: rest) = .ok h ∧
        h.data = rest ∧ h.totalLength = b4 * 256 + b5) := by
  constructor
  · intro bytes hlen
    unfold unpack
    split
    · simp at hlen
      omega
    · rfl
  · intro b0 b1 b2 b3 b4 b5 b6 b7 b8 b9 p0 p1 rest h12 h65536 hrest
    unfold unpack
    dsimp only [unpackFlags]
    exact mkHeader_success _ _ _ _ _ _ _ _ _ h12 h65536 hrest

/-- C6 (counterexample): twelve zero bytes are a 12-byte input — not "fewer
than 12" — whose declared total length 0 makes the constructor inside
`unpack` raise, refuting both "fails exactly when fewer than 12 bytes" and
"for every input of at least 12 bytes unpack succeeds". -/
theorem c6_counterexample :
    (List.replicate 12 0).length = 12 ∧
      unpack (List.replicate 12 0) = .error "Invalid total length" := by
  decide

/-- C6 (witness): a concrete 13-byte input with a length mismatch (declared
total length 12, one payload byte present) unpacks successfully and carries
the byte actually present. -/
theorem c6_witness :
    ∃ h, unpack (0 :: 0 :: 0 :: 0 :: 0 :: 12 :: 0 :: 0 :: 0 :: 0 :: 0 :: 0 :: [55]) =
        .ok h ∧ h.data = [55] ∧ h.totalLength = 12 :=
  c6_amended.2 0 0 0 0 0 12 0 0 0 0 0 0 [55] (by decide) (by decide) (by decide)

/-! ## Claim C9 — request status-code invariant -/

/-- C9 (amended): construction passes the status code and the request flag
through unchanged: a request constructed with a nonzero status code keeps
that nonzero status code (the contradiction is only warned about, line
120-122 of src/api.py), so the invariant "status code 0 whenever the request
flag is set" is *not* enforced by construction. -/
theorem c9_amended (uts : Nat) (tlOpt : Option Nat) (r : Nat) (cr ss ir : Bool)
    (sc cc : Nat) (d : List Nat) (h : Header)
    (he : mkHeader uts tlOpt r cr ss ir sc cc d = .ok h) :
    h.statusCode = sc ∧ h.isRequest = ir := by
  obtain ⟨-, -, -, -, hir, hsc, -⟩ := mkHeader_fields uts tlOpt r cr ss ir sc cc d h he
  exact ⟨hsc, hir⟩

/-- C9 (counterexample): a request constructed with status code 5 is
accepted and keeps status code 5 while its request flag is set — a
constructed header violating the claimed invariant. -/
theorem c9_counterexample :
    mkHeader 0 none 0 false false true 5 0 [] =
        .ok ⟨0, 12, 0, false, false, true, 5, 0, []⟩ ∧
      (⟨0, 12, 0, false, false, true, 5, 0, []⟩ : Header).isRequest = true ∧
      (⟨0, 12, 0, false, false, true, 5, 0, []⟩ : Header).statusCode ≠ 0 := by
  decide

/-- C9 (witness): the amended claim at a concrete request. -/
theorem c9_witness :
    (⟨3, 12, 0, false, false, true, 7, 0, []⟩ : Header).statusCode = 7 ∧
      (⟨3, 12, 0, false, false, true, 7, 0, []⟩ : Header).isRequest = true :=
  c9_amended 3 none 0 false false true 7 0 [] _ (by decide)

/-! ## Claim C2 — cache freshness resolution -/

/-- C2: in the cache resolver, (1) a request with cache control 0 bypasses
the cache and is forwarded upstream regardless of any existing entry; (2) for
a cached entry with cache control 100 and age 50, a request with cache
control 200 is answered from the cache as a hit — without contacting
upstream: the result is independent of the upstream header and the cache is
unchanged — with server remaining 50 and client remaining 150; (3) cache
control 65535 (in both the entry and the request) is treated as infinite age
tolerance: the entry is a hit at any age, with both remainders infinite. -/
theorem c2_freshness :
    (∀ (request : Header) (cache : Cache) (now1 now2 : Int) (upstream : Header),
      request.isRequest = true → upstream.isRequest = false →
      request.cacheControl = 0 →
      ∃ r, proxyProcessRequest request cache now1 now2 upstream = .ok r ∧
        r.cacheHit = false ∧ r.response = upstream) ∧
    (∀ (request entry : Header) (cache : Cache) (now1 now2 : Int) (upstream : Header),
      request.isRequest = true →
      cacheLookup cache (request.data, request.showSteps) = some entry →
      entry.cacheControl = 100 → now1 - (entry.unixTimeStamp : Int) = 50 →
      request.cacheControl = 200 →
      proxyProcessRequest request cache now1 now2 upstream =
        .ok ⟨entry, .fin 50, .fin 150, true, false, false, cache⟩) ∧
    (∀ (request entry : Header) (cache : Cache) (now1 now2 : Int) (upstream : Header),
      request.isRequest = true →
      cacheLookup cache (request.data, request.showSteps) = some entry →
      entry.cacheControl = 65535 → request.cacheControl = 65535 →
      proxyProcessRequest request cache now1 now2 upstream =
        .ok ⟨entry, .inf, .inf, true, false, false, cache⟩) := by
  refine ⟨?_, ?_, ?_⟩
  · intro request cache now1 now2 upstream hreq hup hcc
    unfold proxyProcessRequest
    rw [hreq, if_neg (by simp)]
    dsimp only
    rcases hl : cacheLookup cache (request.data, request.showSteps) with _ | entry <;>
      dsimp only <;> rw [hcc]
    · rw [hup, if_neg (by simp)]
      exact ⟨_, rfl, rfl, rfl⟩
    · rw [if_neg (by simp), hup, if_neg (by simp)]
      exact ⟨_, rfl, rfl, rfl⟩
  · intro request entry cache now1 now2 upstream hreq hl hcent hage hcreq
    unfold proxyProcessRequest
    rw [hreq, if_neg (by simp)]
    dsimp only
    rw [hl]
    dsimp only
    rw [hcreq, if_pos (by norm_num), hcent, hage]
    norm_num [ccRem, TimeRem.pos]
  · intro request entry cache now1 now2 upstream hreq hl hcent hcreq
    unfold proxyProcessRequest
    rw [hreq, if_neg (by simp)]
    dsimp only
    rw [hl]
    dsimp only
    rw [hcreq, if_pos (by norm_num), hcent]
    norm_num [ccRem, TimeRem.pos]

/-- C2 (witness): the three parts of the freshness claim at concrete
requests, caches and times: a cache-control-0 request forwarded despite no /
any entry; the 100/50/200 hit with remainders 50 and 150; and a 65535 entry
hit at age 400. -/
theorem c2_witness :
    (∃ r, proxyProcessRequest ⟨0, 12, 0, false, false, true, 0, 0, []⟩ []
        150 150 ⟨0, 12, 0, false, false, false, 200, 0, []⟩ = .ok r ∧
      r.cacheHit = false ∧ r.response = ⟨0, 12, 0, false, false, false, 200, 0, []⟩) ∧
    proxyProcessRequest ⟨0, 13, 0, true, false, true, 0, 200, [7]⟩
        [(([7], false), ⟨100, 13, 0, true, false, false, 200, 100, [7]⟩)] 150 150
        ⟨0, 12, 0, false, false, false, 200, 0, []⟩ =
      .ok ⟨⟨100, 13, 0, true, false, false, 200, 100, [7]⟩, .fin 50, .fin 150, true,
        false, false, [(([7], false), ⟨100, 13, 0, true, false, false, 200, 100, [7]⟩)]⟩ ∧
    proxyProcessRequest ⟨0, 13, 0, true, false, true, 0, 65535, [9]⟩
        [(([9], false), ⟨100, 13, 0, true, false, false, 200, 65535, [9]⟩)] 500 500
        ⟨0, 12, 0, false, false, false, 200, 0, []⟩ =
      .ok ⟨⟨100, 13, 0, true, false, false, 200, 65535, [9]⟩, .inf, .inf, true,
        false, false, [(([9], false), ⟨100, 13, 0, true, false, false, 200, 65535, [9]⟩)]⟩ :=
  ⟨c2_freshness.1 _ _ _ _ _ (by decide) (by decide) (by decide),
    c2_freshness.2.1 _ _ _ _ _ _ (by decide) (by decide) (by decide) (by decide) (by decide),
    c2_freshness.2.2 _ _ _ _ _ _ (by decide) (by decide) (by decide) (by decide)⟩

/-! ## Claim C3 — store-after-forward policy -/

/-- C3: whenever the resolver forwards upstream (every non-hit outcome), the
response is the upstream header, both remainders are recomputed against the
fresh response's timestamp and cache control, the entry is stored if and only
if the request's cache flag is set, the response's cache flag is set, and
both remainders are strictly positive; the cache is updated (overwriting
under the key `(payload, steps flag)`) exactly when stored, and left
unchanged otherwise. -/
theorem c3_storePolicy (request : Header) (cache : Cache) (now1 now2 : Int)
    (upstream : Header) (r : ProxyOutcome)
    (hok : proxyProcessRequest request cache now1 now2 upstream = .ok r)
    (hmiss : r.cacheHit = false) :
    r.response = upstream ∧
    r.serverRem = ccRem upstream.cacheControl (now2 - (upstream.unixTimeStamp : Int)) ∧
    r.clientRem = ccRem request.cacheControl (now2 - (upstream.unixTimeStamp : Int)) ∧
    r.cached = (request.cacheResult && upstream.cacheResult &&
      r.serverRem.pos && r.clientRem.pos) ∧
    r.newCache = (if r.cached = true then
      cacheSet cache (request.data, request.showSteps) upstream else cache) := by
  unfold proxyProcessRequest at hok
  split at hok
  · exact Except.noConfusion hok
  · dsimp only at hok
    split at hok
    · rename_i entry hl
      split at hok
      · split at hok
        · injection hok with h
          subst h
          exact absurd hmiss (by simp)
        · split at hok
          · exact Except.noConfusion hok
          · injection hok with h
            subst h
            exact ⟨rfl, rfl, rfl, rfl, rfl⟩
      · split at hok
        · exact Except.noConfusion hok
        · injection hok with h
          subst h
          exact ⟨rfl, rfl, rfl, rfl, rfl⟩
    · split at hok
      · exact Except.noConfusion hok
      · injection hok with h
        subst h
        exact ⟨rfl, rfl, rfl, rfl, rfl⟩

/-- C3 (witness): a concrete first request (empty cache) whose fresh,
cacheable response is stored under `(payload, steps flag)`. -/
theorem c3_witness :
    (⟨⟨100, 12, 0, true, false, false, 200, 300, []⟩, .fin 250, .fin 350, false,
        false, true,
        [(([3], true), ⟨100, 12, 0, true, false, false, 200, 300, []⟩)]⟩ :
        ProxyOutcome).response = ⟨100, 12, 0, true, false, false, 200, 300, []⟩ ∧
      (TimeRem.fin 250) = ccRem 300 (150 - ((100:Nat) : Int)) ∧
      (TimeRem.fin 350) = ccRem 400 (150 - ((100:Nat) : Int)) ∧
      (true : Bool) = (true && true && (TimeRem.fin 250).pos && (TimeRem.fin 350).pos) ∧
      [(([3], true), (⟨100, 12, 0, true, false, false, 200, 300, []⟩ : Header))] =
        (if true = true then cacheSet [] ([3], true)
          ⟨100, 12, 0, true, false, false, 200, 300, []⟩ else []) := by
  have h := c3_storePolicy ⟨0, 13, 0, true, true, true, 0, 400, [3]⟩ [] 150 150
    ⟨100, 12, 0, true, false, false, 200, 300, []⟩
    ⟨⟨100, 12, 0, true, false, false, 200, 300, []⟩, .fin 250, .fin 350, false,
      false, true, [(([3], true), ⟨100, 12, 0, true, false, false, 200, 300, []⟩)]⟩
    (by decide) (by decide)
  exact h

/-! ## Claims C4 and C10 — evaluator step traces -/

/-- For every non-leaf expression, a successful evaluation appends a final
`Constant` snapshot of the result: each non-leaf branch of `calculate` ends
with `steps.append(const)` where `const = Constant(result)` (src/server.py
lines 32-33, 40-41, 52-53). -/
theorem calculate_nonleaf_last (e : Expression) (steps0 : List Expression)
    (v : ℚ) (s : List Expression) (hleaf : e.isLeaf = false)
    (hok : calculate e steps0 = .ok (v, s)) :
    s ≠ [] ∧ s.getLast? = some (.const v) := by
  cases e with
  | const w => simp [Expression.isLeaf] at hleaf
  | namedConstant n w => simp [Expression.isLeaf] at hleaf
  | binary l op r =>
    rw [calculate] at hok
    split at hok
    · exact Except.noConfusion hok
    · split at hok
      · exact Except.noConfusion hok
      · injection hok with h
        injection h with h1 h2
        subst h1
        subst h2
        constructor
        · simp
        · rw [List.getLast?_concat]
  | unary op a =>
    rw [calculate] at hok
    split at hok
    · exact Except.noConfusion hok
    · injection hok with h
      injection h with h1 h2
      subst h1
      subst h2
      constructor
      · simp
      · rw [List.getLast?_concat]
  | call f args =>
    rw [calculate] at hok
    split at hok
    · exact Except.noConfusion hok
    · injection hok with h
      injection h with h1 h2
      subst h1
      subst h2
      constructor
      · simp
      · rw [List.getLast?_concat]
  | unknown =>
    rw [calculate] at hok
    exact Except.noConfusion hok

/-- The `steps` list passed to the argument loop is only ever appended to:
running it on `steps = s` yields the run on `steps = []` with `s` prefixed. -/
theorem calcArgs_append (f : Func) (orig : List Expression) :
    ∀ (rem : List Expression) (vals : List ℚ) (s : List Expression),
      calcArgs f orig rem vals s =
        match calcArgs f orig rem vals [] with
        | .error e => .error e
        | .ok vt => .ok (vt.1, s ++ vt.2) := by
  intro rem
  induction rem with
  | nil =>
    intro vals s
    rw [calcArgs, calcArgs]
    simp
  | cons a rest ih =>
    intro vals s
    rw [calcArgs]
    conv_rhs => rw [calcArgs]
    rcases hc : calculate a [] with er | ar
    · simp
    · dsimp only
      rw [ih]
      conv_rhs => rw [ih]
      rcases hb : calcArgs f orig rest (vals ++ [ar.1]) [] with er2 | vt <;>
        simp [List.append_assoc]

/-- The `steps` parameter of `calculate` is only ever appended to (the Python
code mutates the list in place with `append`): evaluating with `steps = s`
yields the evaluation with `steps = []`, with `s` prefixed to the trace. -/
theorem calculate_append (e : Expression) (s : List Expression) :
    calculate e s =
      match calculate e [] with
      | .error er => .error er
      | .ok vt => .ok (vt.1, s ++ vt.2) := by
  cases e with
  | const w => simp [calculate]
  | namedConstant n w => simp [calculate]
  | binary l op r =>
    rw [calculate]
    conv_rhs => rw [calculate]
    rcases hl : calculate l [] with er | lr
    · simp
    · dsimp only
      rcases hr : calculate r [] with er | rr
      · simp
      · simp [List.append_assoc]
  | unary op a =>
    rw [calculate]
    conv_rhs => rw [calculate]
    rcases ha : calculate a [] with er | ar
    · simp
    · simp [List.append_assoc]
  | call f args =>
    rw [calculate]
    conv_rhs => rw [calculate]
    rw [calcArgs_append]
    rcases hb : calcArgs f args args [] [] with er | vt
    · simp
    · simp [List.append_assoc]
  | unknown => simp [calculate]

/-- C4 (amended): for every expression whose root is a binary, unary or
function-call node, a successful evaluation returns a non-empty step list
whose last element is a bare `Constant` snapshot of the returned final
value.  For `Constant`/`NamedConstant` roots the step list is empty (see the
counterexample), so the claim cannot quantify over single-leaf trees. -/
theorem c4_lastStep (e : Expression) (steps0 : List Expression) (v : ℚ)
    (s : List Expression) (hleaf : e.isLeaf = false)
    (hok : calculate e steps0 = .ok (v, s)) :
    s ≠ [] ∧ s.getLast? = some (.const v) :=
  calculate_nonleaf_last e steps0 v s hleaf hok

/-- C4 (counterexample): evaluating the single-leaf tree `Constant(5)`
returns the empty step list — the step sequence of a leaf is not non-empty,
exactly as the "no steps" sentence of the spec says. -/
theorem c4_counterexample :
    calculate (.const 5) [] = .ok ((5 : ℚ), ([] : List Expression)) := by
  simp [calculate]

/-- C4 (witness): the amended claim at the concrete tree `1 + 2`. -/
theorem c4_witness :
    ([Expression.binary (.const 1) opAdd (.const 2), .const 3] : List Expression) ≠ [] ∧
      ([Expression.binary (.const 1) opAdd (.const 2), .const 3] :
        List Expression).getLast? = some (.const 3) :=
  c4_lastStep (.binary (.const 1) opAdd (.const 2)) [] 3
    [Expression.binary (.const 1) opAdd (.const 2), .const 3] (by simp [Expression.isLeaf])
    (by simp [calculate, opAdd]; norm_num)

/-- C10: with the `steps` argument omitted, the Python default is one shared
mutable list, modelled by `calculateDefault` threading the default list's
content.  For any non-leaf expression: the first omitted-argument call
returns the trace `t`; a second omitted-argument call returns `t ++ t` — a
step list of different length containing the first call's steps as a proper
prefix — while calls that pass a fresh empty list always return the same
`(v, t)` for the same input (`calculate` is a pure function of its two
arguments in this embedding, so equal inputs give equal results
definitionally). -/
theorem c10_defaultSteps (e : Expression) (v : ℚ) (t : List Expression)
    (hleaf : e.isLeaf = false) (hok : calculate e [] = .ok (v, t)) :
    calculateDefault [] e = .ok ((v, t), t) ∧
    calculateDefault t e = .ok ((v, t ++ t), t ++ t) ∧
    (t ++ t).length ≠ t.length ∧
    (∃ u, u ≠ [] ∧ t ++ t = t ++ u) := by
  have hne : t ≠ [] := (calculate_nonleaf_last e [] v t hleaf hok).1
  refine ⟨?_, ?_, ?_, t, hne, rfl⟩
  · unfold calculateDefault
    rw [hok]
  · unfold calculateDefault
    rw [calculate_append, hok]
  · have := List.length_pos.2 hne
    simp only [List.length_append]
    omega

/-- C10 (witness): the default-argument aliasing at the concrete tree
`1 + 2`: the second omitted-argument call returns a doubled step list. -/
theorem c10_witness :
    calculateDefault [] (.binary (.const 1) opAdd (.const 2)) =
      .ok ((3, [Expression.binary (.const 1) opAdd (.const 2), .const 3]),
        [Expression.binary (.const 1) opAdd (.const 2), .const 3]) ∧
    calculateDefault [Expression.binary (.const 1) opAdd (.const 2), .const 3]
        (.binary (.const 1) opAdd (.const 2)) =
      .ok ((3, [Expression.binary (.const 1) opAdd (.const 2), .const 3] ++
          [Expression.binary (.const 1) opAdd (.const 2), .const 3]),
        [Expression.binary (.const 1) opAdd (.const 2), .const 3] ++
          [Expression.binary (.const 1) opAdd (.const 2), .const 3]) ∧
    (([Expression.binary (.const 1) opAdd (.const 2), .const 3] ++
        [Expression.binary (.const 1) opAdd (.const 2), .const 3]).length ≠
      ([Expression.binary (.const 1) opAdd (.const 2), .const 3] : List Expression).length) ∧
    (∃ u, u ≠ [] ∧
      [Expression.binary (.const 1) opAdd (.const 2), .const 3] ++
          [Expression.binary (.const 1) opAdd (.const 2), .const 3] =
        [Expression.binary (.const 1) opAdd (.const 2), .const 3] ++ u) :=
  c10_defaultSteps (.binary (.const 1) opAdd (.const 2)) 3
    [Expression.binary (.const 1) opAdd (.const 2), .const 3]
    (by simp [Expression.isLeaf]) (by simp [calculate, opAdd]; norm_num)

/-! ## Claim C7 — bracket-minimization idempotence -/

/-- A fold by a function that fixes every accumulator on every list element
is the identity. -/
theorem foldl_of_fixed {α β : Type} (f : α → β → α) (l : List β) (a : α)
    (h : ∀ x ∈ l, ∀ acc, f acc x = acc) : l.foldl f a = a := by
  induction l generalizing a with
  | nil => rfl
  | cons x xs ih =>
    rw [List.foldl_cons, h x (by simp)]
    exact ih a (fun y hy acc => h y (by simp [hy]) acc)

/-- C7 (amended): the redundant-pair removal pass is idempotent on every
balanced-bracket string that contains *no* redundant pair — no matched pair
immediately nested inside another over the same sub-range, and no pair
spanning the whole string — because on such strings the pass is the
identity.  On general balanced strings the pass is *not* idempotent: after a
first splice the remaining matchings refer to stale indices, so later
splices corrupt the string (see the counterexample). -/
theorem c7_stripIdempotent (s : List Char) (m : List (Nat × Nat))
    (hm : matchLoop s 0 [] [] = .ok m)
    (hnr : ∀ p ∈ m, m.lookup (p.1 + 1) ≠ some (p.2 - 1))
    (hwrap : m.lookup 0 ≠ some (s.length - 1)) :
    stripPass s = .ok s ∧ (stripPass s >>= stripPass) = stripPass s := by
  have h1 : stripPass s = .ok s := by
    unfold stripPass
    rw [hm]
    dsimp only
    have hfold : m.foldl
        (fun cur lr =>
          if m.lookup (lr.1 + 1) = some (lr.2 - 1) then
            cur.take lr.1 ++ (cur.drop (lr.1 + 1)).take (lr.2 - 1 - (lr.1 + 1)) ++
              cur.drop lr.2
          else cur) s = s :=
      foldl_of_fixed _ m s (fun p hp acc => by rw [if_neg (hnr p hp)])
    rw [hfold, if_neg hwrap]
  refine ⟨h1, ?_⟩
  rw [h1]
  show stripPass s = .ok s
  exact h1

/-- C7 (counterexample): on the balanced string `((a))((b))` the pass
removes the first redundant pair, after which the stored indices of the
second redundant pair are stale: the splice deletes the `b`, producing
`(a)(())`; a second application produces `(a)()`.  Applying the pass twice
does not equal applying it once. -/
theorem c7_counterexample :
    stripPass ("((a))((b))".toList) = .ok ("(a)(())".toList) ∧
      stripPass ("(a)(())".toList) = .ok ("(a)()".toList) ∧
      (stripPass ("((a))((b))".toList) >>= stripPass) ≠
        stripPass ("((a))((b))".toList) := by
  refine ⟨by decide, by decide, by decide⟩

/-- C7 (witness): the amended claim at the concrete balanced string
`(a) + (b)`, which has two matched pairs but no redundant one. -/
theorem c7_witness :
    stripPass ("(a) + (b)".toList) = .ok ("(a) + (b)".toList) ∧
      (stripPass ("(a) + (b)".toList) >>= stripPass) =
        stripPass ("(a) + (b)".toList) :=
  c7_stripIdempotent ("(a) + (b)".toList) [(0, 2), (6, 8)] (by decide) (by decide)
    (by decide)

/-! ## Claim C8 — status codes of error responses -/

/-- C8 (amended): every response produced by the server function `process_request`
has status 200 (success) or 400 (`STATUS_CLIENT_ERROR`); in particular,
*every* error raised while handling a request — deserialization failure,
arithmetic evaluation error, receiving a response in place of a request, and
also the internal unknown-node-kind `TypeError` — is answered with 400.  No
5xx response is produced by `process_request` (the 500 path lives only in
the outer connection handler, src/server.py lines 148-151). -/
theorem c8_statusCodes :
    (∀ (now : Nat) (decode : List Nat → Except String Expression)
        (encR : ℚ → List String → List Nat) (encE : String → List Nat)
        (request : Header) (h : Header),
      serverProcessRequest now decode encR encE request = .ok h →
      h.statusCode = 200 ∨ h.statusCode = 400) ∧
    (∀ (now : Nat) (decode : List Nat → Except String Expression)
        (encR : ℚ → List String → List Nat) (encE : String → List Nat)
        (request : Header) (e : String) (h : Header),
      serverCompute decode request = .error e →
      serverProcessRequest now decode encR encE request = .ok h →
      h.statusCode = 400) := by
  constructor
  · intro now decode encR encE request h hok
    unfold serverProcessRequest at hok
    split at hok
    · right
      obtain ⟨-, -, -, -, -, hsc, -⟩ :=
        mkHeader_fields _ _ _ _ _ _ _ _ _ _ hok
      exact hsc
    · split at hok
      · exact Except.noConfusion hok
      · left
        obtain ⟨-, -, -, -, -, hsc, -⟩ :=
          mkHeader_fields _ _ _ _ _ _ _ _ _ _ hok
        exact hsc
  · intro now decode encR encE request e h herr hok
    unfold serverProcessRequest at hok
    rw [herr] at hok
    obtain ⟨-, -, -, -, -, hsc, -⟩ :=
      mkHeader_fields _ _ _ _ _ _ _ _ _ _ hok
    exact hsc

/-- C8 (counterexample): a well-formed request whose payload decodes to an
expression of unrecognized kind — the internal error the claim says is *not*
mapped to a 4xx — is answered with status 400, a 4xx client-error code. -/
theorem c8_counterexample :
    serverCompute (fun _ => .ok .unknown) ⟨0, 12, 0, false, false, true, 0, 0, []⟩ =
        .error "Unknown expression type" ∧
      serverProcessRequest 0 (fun _ => .ok .unknown) (fun _ _ => []) (fun _ => [])
          ⟨0, 12, 0, false, false, true, 0, 0, []⟩ =
        .ok ⟨0, 12, 0, true, false, false, 400, 65535, []⟩ ∧
      (⟨0, 12, 0, true, false, false, 400, 65535, []⟩ : Header).statusCode = 400 := by
  refine ⟨?_, ?_, rfl⟩
  · simp [serverCompute, calculate]
  · simp [serverProcessRequest, serverCompute, calculate, fromError, fromResponse,
      mkHeader, CACHE_POLICY, CACHE_CONTROL]

/-- C8 (witness): both parts of the amended claim at the concrete
unknown-node request. -/
theorem c8_witness :
    ((⟨0, 12, 0, true, false, false, 400, 65535, []⟩ : Header).statusCode = 200 ∨
      (⟨0, 12, 0, true, false, false, 400, 65535, []⟩ : Header).statusCode = 400) ∧
    (⟨0, 12, 0, true, false, false, 400, 65535, []⟩ : Header).statusCode = 400 := by
  constructor
  · exact c8_statusCodes.1 0 (fun _ => .ok .unknown) (fun _ _ => []) (fun _ => [])
      ⟨0, 12, 0, false, false, true, 0, 0, []⟩ _
      (by simp [serverProcessRequest, serverCompute, calculate, fromError,
        fromResponse, mkHeader, CACHE_POLICY, CACHE_CONTROL])
  · exact c8_statusCodes.2 0 (fun _ => .ok .unknown) (fun _ _ => []) (fun _ => [])
      ⟨0, 12, 0, false, false, true, 0, 0, []⟩ "Unknown expression type" _
      (by simp [serverCompute, calculate])
      (by simp [serverProcessRequest, serverCompute, calculate, fromError,
        fromResponse, mkHeader, CACHE_POLICY, CACHE_CONTROL])

end CalcNet
